import Mathlib

/-!
Verification development for the ZOBON real-time scoring and alerting
pipeline.  The repository ships the React dashboard (notably
`dashboard-react/src/services/api.js`); the backend pipeline components
(Classifier Client, Scoring Engine, Alert Engine, Aggregation Store
Writer) are not part of the available sources and are modelled from the
specification where a claim depends on them.  All numeric quantities that
the running system represents as floating point are modelled as rationals.
-/

/-- Closed enum of bias categories (spec §3, README "Bias categorization:
Urban, Elitist, Demographic, Gender-based"). -/
inductive BiasCategory where
  | urban
  | elitist
  | demographic
  | gender
deriving DecidableEq, Repr

/-- Sentiment enum (spec §3: positive / neutral / negative). -/
inductive Sentiment where
  | positive
  | neutral
  | negative
deriving DecidableEq, Repr

/-- Source enum for a raw mention (spec §3: forum / video / news). -/
inductive MentionSource where
  | forum
  | video
  | news
deriving DecidableEq, Repr

/-- Alert severity levels (spec §3: Low / Medium / High / Critical). -/
inductive Severity where
  | low
  | medium
  | high
  | critical
deriving DecidableEq, Repr

/-- Alert lifecycle states (spec §4.3: Open → Acknowledged → Resolved). -/
inductive AlertState where
  | Open
  | Acknowledged
  | Resolved
deriving DecidableEq, Repr

/-- Modelled from the spec: the fixed configuration table of bias severity
weights keyed by `BiasCategory` (spec §4.2, "Weights are a fixed
configuration table keyed by BiasCategory"); the concrete numbers are
illustrative configuration, not derivable from the spec. -/
def biasWeight : BiasCategory → ℚ
  | .urban => 50
  | .elitist => 40
  | .demographic => 45
  | .gender => 45

/-- Modelled from the spec: which bias categories are Critical-tier for
severity assignment (spec §4.3). -/
def criticalTier : BiasCategory → Bool
  | .demographic => true
  | .gender => true
  | _ => false

/-- Immutable raw mention record produced by the connectors (spec §3). -/
structure RawMention where
  id : String
  brand : String
  source : MentionSource
  text : String
  authorContext : String
  publishedAt : ℕ
  ingestedAt : ℕ
deriving DecidableEq, Repr

/-- Classifier response (spec §6: `{bias-categories, sentiment, confidence}`,
each detected category paired with its confidence). -/
structure ClassifierOutput where
  biasCategories : List (BiasCategory × ℚ)
  sentiment : Sentiment
  sentimentConfidence : ℚ
  confidence : ℚ
deriving DecidableEq, Repr

/-- Error classes of the classifier boundary (spec §6). -/
inductive ClassifierError where
  | ClassifierUnavailable
  | ClassifierTimeout
  | InvalidInput
deriving DecidableEq, Repr

/-- Scored mention, derived once per RawMention id (spec §3).  The
`scoredAt` field is derived from the mention itself so that scoring is a
pure function of its inputs (required for the determinism invariant). -/
structure ScoredMention where
  mentionId : String
  trustScore : ℚ
  biasCategories : List (BiasCategory × ℚ)
  sentiment : Sentiment
  sentimentConfidence : ℚ
  classifierConfidence : ℚ
  scoredAt : ℕ
deriving DecidableEq, Repr

/-- Clamp a rational to the closed interval [0, 100] (spec §4.2,
"clamped to [0,100]"). -/
def clampScore (x : ℚ) : ℚ := max 0 (min 100 x)

/-- Modelled from the spec: the negative-sentiment penalty, which "scales
with sentiment confidence when sentiment is negative, zero otherwise"
(spec §4.2); the scale factor 30 is illustrative configuration. -/
def negPenalty (s : Sentiment) (conf : ℚ) : ℚ :=
  if s = .negative then 30 * conf else 0

/-- Weighted sum of bias-category confidences against the weight table. -/
def biasPenalty (cats : List (BiasCategory × ℚ)) : ℚ :=
  cats.foldl (fun acc p => acc + biasWeight p.1 * p.2) 0

/-- Modelled from the spec: the trust score base formula of §4.2,
`base = 100 − Σ(bias_weight_i × confidence_i) − negative_sentiment_penalty`. -/
def trustBase (out : ClassifierOutput) : ℚ :=
  100 - biasPenalty out.biasCategories - negPenalty out.sentiment out.sentimentConfidence

/-- Modelled from the spec: the Scoring Engine success path
`score(RawMention) → ScoredMention` (spec §4.2); the backend scoring code
is not among the available sources. -/
def score (m : RawMention) (out : ClassifierOutput) : ScoredMention :=
  { mentionId := m.id
    trustScore := clampScore (trustBase out)
    biasCategories := out.biasCategories
    sentiment := out.sentiment
    sentimentConfidence := out.sentimentConfidence
    classifierConfidence := out.confidence
    scoredAt := m.ingestedAt }

/-- Modelled from the spec: the keyword weight table of the lexical
fallback heuristic (spec §4.2, "trust-score computed from a lexical
fallback heuristic (keyword-weighted)"); the words and weights are
illustrative configuration. -/
def lexicalKeywords : List (String × ℚ) :=
  [("scam", 40), ("fraud", 40), ("misleading", 25), ("greenwashing", 25),
   ("biased", 20), ("fake", 30)]

/-- Modelled from the spec: keyword-weighted lexical fallback trust score
used on the degraded path (spec §4.2), clamped to [0,100]. -/
def lexicalFallback (text : String) : ℚ :=
  clampScore (lexicalKeywords.foldl
    (fun acc p => if (text.splitOn " ").contains p.1 then acc - p.2 else acc) 100)

/-- Modelled from the spec: the full Scoring Engine including the degraded
path of §4.2: on `ClassifierUnavailable` (or a timeout that exhausted the
client's retries) a ScoredMention is still emitted, with classifier
confidence 0, empty bias-category set, neutral sentiment and the lexical
fallback trust score. -/
def scoreWith (m : RawMention) (r : Except ClassifierError ClassifierOutput) :
    ScoredMention :=
  match r with
  | .ok out => score m out
  | .error _ =>
    { mentionId := m.id
      trustScore := lexicalFallback m.text
      biasCategories := []
      sentiment := .neutral
      sentimentConfidence := 0
      classifierConfidence := 0
      scoredAt := m.ingestedAt }

/-- Modelled from the spec: process-local circuit breaker counters of the
Classifier Client (spec §4.1). -/
structure CircuitBreaker where
  consecutiveFailures : ℕ
deriving DecidableEq, Repr

/-- Modelled from the spec: the breaker opens after K consecutive failures
(spec §4.1); K = 5 is illustrative configuration. -/
def breakerLimit : ℕ := 5

/-- The breaker is open once the consecutive-failure count reaches the limit. -/
def CircuitBreaker.isOpen (b : CircuitBreaker) : Bool :=
  breakerLimit ≤ b.consecutiveFailures

/-- Modelled from the spec: a classifier call through the circuit breaker;
while the breaker is open, calls fail fast with `ClassifierUnavailable`
without attempting the network call (spec §4.1).  The `net` argument is
the outcome the network call would have had. -/
def callClassifier (b : CircuitBreaker)
    (net : Except ClassifierError ClassifierOutput) :
    Except ClassifierError ClassifierOutput :=
  if b.isOpen then .error .ClassifierUnavailable else net

/-- Numeric rank of a severity, used to take maxima (Low < Medium < High <
Critical). -/
def sevRank : Severity → ℕ
  | .low => 0
  | .medium => 1
  | .high => 2
  | .critical => 3

/-- Maximum of two severities by rank. -/
def sevMax (a b : Severity) : Severity :=
  if sevRank a ≤ sevRank b then b else a

/-- Maximum severity of a list of severities, `none` when the list is empty. -/
def maxSeverity (l : List Severity) : Option Severity :=
  l.foldr (fun s acc => match acc with
    | none => some s
    | some t => some (sevMax s t)) none

/-- The list of severities of the simultaneously-firing severity conditions
of spec §4.3 at a candidate alert: Critical when trust < 30 or a
Critical-tier bias category fires with confidence > 0.9 (`cb`); High when
trust < 50; Medium when trust < 70; Low when the trigger is a rate/delay
trigger (`rd`). -/
def firingSeverities (ts : ℚ) (cb rd : Bool) : List Severity :=
  (if ts < 30 ∨ cb = true then [Severity.critical] else []) ++
  (if ts < 50 then [Severity.high] else []) ++
  (if ts < 70 then [Severity.medium] else []) ++
  (if rd = true then [Severity.low] else [])

/-- Modelled from the spec: the Alert Engine's severity assignment cascade
(spec §4.3); the backend alert code is not among the available sources.
Returns `none` when no severity condition fires (no candidate alert). -/
def assignSeverity (ts : ℚ) (cb rd : Bool) : Option Severity :=
  if ts < 30 ∨ cb = true then some .critical
  else if ts < 50 then some .high
  else if ts < 70 then some .medium
  else if rd = true then some .low
  else none

/-- Deduplication key of spec §4.3: (brand, bias-type-or-null, severity
bucket). -/
abbrev DedupKey : Type := String × Option BiasCategory × Severity

/-- Alert record (spec §3).  `lastTriggeredAt` records the most recent
re-trigger, used by the lazy cooldown-expiry check of spec §4.3. -/
structure Alert where
  id : ℕ
  brand : String
  biasType : Option BiasCategory
  trustScoreAtTrigger : ℚ
  severity : Severity
  textSample : String
  triggeredAt : ℕ
  lastTriggeredAt : ℕ
  state : AlertState
  resolvedAt : Option ℕ
  dedupKey : DedupKey
deriving DecidableEq, Repr

/-- The Alert Engine's store: alerts are never deleted, only
state-transitioned (spec §3, audit trail). -/
abbrev AlertStore : Type := List Alert

/-- Modelled from the spec: the cooldown window of §4.3 (default 15
minutes), in minutes. -/
def cooldown : ℕ := 15

/-- A trigger presented to the Alert Engine: the per-mention evaluation
inputs of spec §4.3. -/
structure Trigger where
  brand : String
  biasType : Option BiasCategory
  trustScore : ℚ
  criticalBias : Bool
  rateDelay : Bool
  text : String
  time : ℕ
deriving DecidableEq, Repr

/-- Dedup key of a trigger at a given severity bucket. -/
def Trigger.key (t : Trigger) (sev : Severity) : DedupKey :=
  (t.brand, t.biasType, sev)

/-- Test that an alert is Open with the given dedup key. -/
def isOpenFor (k : DedupKey) (a : Alert) : Bool :=
  a.state = AlertState.Open && a.dedupKey = k

/-- Latest-evidence update of an existing Open alert (spec §4.3:
"update the existing alert's trust-score-at-trigger and text-sample
(latest evidence wins)"). -/
def touch (t : Trigger) (a : Alert) : Alert :=
  { a with trustScoreAtTrigger := t.trustScore
           textSample := t.text
           lastTriggeredAt := t.time }

/-- Cooldown-expiry automatic resolution of an Open alert (spec §4.3). -/
def autoResolve (now : ℕ) (a : Alert) : Alert :=
  { a with state := AlertState.Resolved, resolvedAt := some now }

/-- Apply the latest-evidence update to the Open alerts of a dedup key,
leaving every other alert unchanged. -/
def touchUpd (k : DedupKey) (t : Trigger) (b : Alert) : Alert :=
  if isOpenFor k b then touch t b else b

/-- Auto-resolve the Open alerts of a dedup key, leaving every other alert
unchanged. -/
def resolveUpd (k : DedupKey) (now : ℕ) (b : Alert) : Alert :=
  if isOpenFor k b then autoResolve now b else b

/-- A freshly created Open alert for a trigger (spec §4.3). -/
def newAlert (t : Trigger) (sev : Severity) (idn : ℕ) : Alert :=
  { id := idn
    brand := t.brand
    biasType := t.biasType
    trustScoreAtTrigger := t.trustScore
    severity := sev
    textSample := t.text
    triggeredAt := t.time
    lastTriggeredAt := t.time
    state := AlertState.Open
    resolvedAt := none
    dedupKey := t.key sev }

/-- Modelled from the spec: one Alert Engine step (spec §4.3); the backend
alert code is not among the available sources.  When a severity condition
fires, an existing Open alert for the dedup key is updated if re-triggered
within the cooldown window; an Open alert whose last trigger is older than
the cooldown is lazily auto-resolved and a fresh alert is created;
otherwise a fresh alert is created. -/
def processTrigger (s : AlertStore) (t : Trigger) : AlertStore :=
  match assignSeverity t.trustScore t.criticalBias t.rateDelay with
  | none => s
  | some sev =>
    match s.find? (isOpenFor (t.key sev)) with
    | some a =>
      if t.time - a.lastTriggeredAt ≤ cooldown then
        s.map (touchUpd (t.key sev) t)
      else
        (s.map (resolveUpd (t.key sev) t.time)) ++ [newAlert t sev s.length]
    | none => s ++ [newAlert t sev s.length]

/-- Fold a sequence of triggers through the Alert Engine. -/
def processTriggers (s : AlertStore) (ts : List Trigger) : AlertStore :=
  ts.foldl processTrigger s

/-- Number of Open alerts in a store carrying a given dedup key. -/
def openCount (k : DedupKey) (s : AlertStore) : ℕ :=
  s.countP (isOpenFor k)

/-- The dedup invariant of spec §3: at most one Open alert per dedup key. -/
def uniqueOpen (s : AlertStore) : Prop :=
  ∀ k : DedupKey, openCount k s ≤ 1

/-- Error classes of the external resolve action (spec §4.3). -/
inductive ResolveError where
  | AlertNotFound
  | AlertAlreadyResolved
deriving DecidableEq, Repr

/-- Modelled from the spec: the external action `resolve(alert-id)` of
spec §4.3, which transitions Open/Acknowledged → Resolved immediately and
fails with `AlertNotFound` or `AlertAlreadyResolved`; the backend endpoint
behind `ApiService.resolveAlert` is not among the available sources.
`resolveMark` marks the alert with the requested id as Resolved. -/
def resolveMark (idn now : ℕ) (b : Alert) : Alert :=
  if b.id == idn then { b with state := AlertState.Resolved, resolvedAt := some now }
  else b

/-- Modelled from the spec: the state transition of `resolve(alert-id)`. -/
def resolveAlert (s : AlertStore) (idn : ℕ) (now : ℕ) :
    Except ResolveError AlertStore :=
  match s.find? (fun a => a.id == idn) with
  | none => .error .AlertNotFound
  | some a =>
    match a.state with
    | .Resolved => .error .AlertAlreadyResolved
    | _ => .ok (s.map (resolveMark idn now))

/-- The store after attempting a resolve action; a failed action leaves the
store unchanged. -/
def applyResolve (s : AlertStore) (idn : ℕ) (now : ℕ) : AlertStore :=
  match resolveAlert s idn now with
  | .ok s2 => s2
  | .error _ => s

/-- Category-specific bias-category trigger thresholds of spec §4.3
("any bias-category confidence exceeds a category-specific threshold");
modelled from the spec, illustrative configuration. -/
def catThreshold : BiasCategory → ℚ
  | .urban => 7/10
  | .elitist => 3/4
  | .demographic => 3/5
  | .gender => 3/5

/-- The dominant bias type of a scored mention: the first category whose
confidence exceeds its trigger threshold, or null for trust-score-only
alerts (spec §3, bias-type is nullable). -/
def biasTypeOf (sm : ScoredMention) : Option BiasCategory :=
  ((sm.biasCategories.filter fun p => catThreshold p.1 < p.2).head?).map Prod.fst

/-- Whether a Critical-tier bias category fires with confidence > 0.9
(spec §4.3). -/
def criticalBiasFires (sm : ScoredMention) : Bool :=
  sm.biasCategories.any fun p => criticalTier p.1 && decide ((9/10 : ℚ) < p.2)

/-- The Alert Engine trigger derived from a scored mention processed at
time `now` (mention-derived triggers are never rate/delay triggers). -/
def mkTrigger (now : ℕ) (m : RawMention) (sm : ScoredMention) : Trigger :=
  { brand := m.brand
    biasType := biasTypeOf sm
    trustScore := sm.trustScore
    criticalBias := criticalBiasFires sm
    rateDelay := false
    text := m.text
    time := now }

/-- Rolling per-brand aggregate (spec §3). -/
structure BrandAggregate where
  mentionCount : ℕ
  avgTrustScore : ℚ
  lastUpdated : ℕ
deriving DecidableEq, Repr

/-- Modelled from the spec: the exponential weight α of the running
average update `avg' = avg + α×(score − avg)` (spec §4.4); illustrative
configuration. -/
def ewmaAlpha : ℚ := 1/10

/-- Exponentially weighted running-average update of a brand aggregate
(spec §4.4). -/
def updateAggregate (now : ℕ) (scoreVal : ℚ) (agg : Option BrandAggregate) :
    BrandAggregate :=
  match agg with
  | none => { mentionCount := 1, avgTrustScore := scoreVal, lastUpdated := now }
  | some a =>
    { mentionCount := a.mentionCount + 1
      avgTrustScore := a.avgTrustScore + ewmaAlpha * (scoreVal - a.avgTrustScore)
      lastUpdated := now }

/-- Association-list upsert keyed on the first component: the new binding
replaces every previous binding of the key. -/
def upsert {β : Type} (l : List (String × β)) (k : String) (v : β) :
    List (String × β) :=
  (k, v) :: l.filter fun p => !(p.1 == k)

/-- The persistent store written by the Aggregation Store Writer
(spec §4.4): scored mentions keyed by mention id, the alert store, and the
per-brand aggregates. -/
structure PipelineState where
  scored : List (String × ScoredMention)
  alerts : AlertStore
  aggregates : List (String × BrandAggregate)
deriving DecidableEq, Repr

/-- Modelled from the spec: one full pipeline pass for a raw mention
(score → alert-evaluate → persist, spec §2/§4.4); the backend pipeline
code is not among the available sources.  All writes are upserts keyed by
mention-id / dedup-key, and the incremental aggregate update is skipped
when the mention id is already present (redelivery), which the spec's
idempotence requirement forces. -/
def processMention (now : ℕ) (m : RawMention)
    (r : Except ClassifierError ClassifierOutput) (st : PipelineState) :
    PipelineState :=
  let sm := scoreWith m r
  let known := (st.scored.lookup m.id).isSome
  { scored := upsert st.scored m.id sm
    alerts := processTrigger st.alerts (mkTrigger now m sm)
    aggregates :=
      if known then st.aggregates
      else upsert st.aggregates m.brand
        (updateAggregate now sm.trustScore (st.aggregates.lookup m.brand)) }

/-- Outcome of the single `fetch` performed by `ApiService.request`
(src/dashboard-react/src/services/api.js, lines 28-60): the response was
ok with a parsed JSON body, the response had a non-ok HTTP status, the
timeout fired and aborted the request, or `fetch` itself failed with an
error carrying the given name-independent message. -/
inductive HttpOutcome (α : Type) where
  | ok (body : α)
  | notOk (status : ℕ)
  | abortError
  | fetchFailed (msg : String)
deriving DecidableEq, Repr

/-- The `{ data }` wrapper returned by `ApiService.request` on success
(api.js line 51). -/
structure ApiResult (α : Type) where
  data : α
deriving DecidableEq, Repr

/-- Shallow embedding of `ApiService.request` (api.js lines 28-60) as a
function of the fetch outcome: an ok response returns the parsed body
wrapped as `{ data }`; a non-ok status throws `HTTP error! status: N`
(that thrown Error is not an AbortError, so the catch block rethrows it);
an AbortError from the timeout is mapped to the timeout error; any other
fetch failure is rethrown unchanged. -/
def request {α : Type} (o : HttpOutcome α) : Except String (ApiResult α) :=
  match o with
  | .ok body => .ok { data := body }
  | .notOk status => .error ("HTTP error! status: " ++ toString status)
  | .abortError => .error "Request timeout - please try again"
  | .fetchFailed msg => .error msg

/-- Executable model of JavaScript `String.prototype.trim`: drop leading
and trailing whitespace characters. -/
def jsTrim (s : String) : String :=
  String.mk (((s.data.dropWhile Char.isWhitespace).reverse.dropWhile
    Char.isWhitespace).reverse)

/-- The JavaScript argument passed to `askSQLAssistant`: either a string
or a non-string value (api.js line 241 checks `typeof question`). -/
inductive JSValue where
  | str (s : String)
  | nonString
deriving DecidableEq, Repr

/-- Outcome of one `fetch` attempt inside `askSQLAssistant` (api.js lines
261-296): an ok response (with whether the body parsed to an object, its
optional `error` field, and its optional string `answer` field), a non-ok
HTTP response whose derived message is `msg`, an AbortError from the
timeout, or a network-level TypeError from `fetch` (connection failure). -/
inductive FetchOutcome where
  | ok (validObj : Bool) (errField : Option String) (answer : Option String)
  | httpErr (status : ℕ) (msg : String)
  | abortErr
  | netErr
deriving DecidableEq, Repr

deriving instance DecidableEq for Except

/-- Trace of one `askSQLAssistant` call: number of fetch attempts made,
the list of delays (ms) slept between attempts, and the final result. -/
structure AskTrace where
  attempts : ℕ
  delays : List ℕ
  result : Except String String
deriving DecidableEq, Repr

/-- The `MAX_RETRIES` constant of `askSQLAssistant` (api.js line 238). -/
def MAX_RETRIES : ℕ := 2

/-- The `RETRY_DELAY` constant of `askSQLAssistant` (api.js line 239). -/
def RETRY_DELAY : ℕ := 2000

/-- Result of an ok fetch response inside `askSQLAssistant` (api.js lines
283-295): an unparsable/non-object body, a body `error` field, and a
missing string `answer` each throw; otherwise the answer is returned. -/
def okResult (validObj : Bool) (errField : Option String)
    (answer : Option String) : Except String String :=
  if !validObj then .error "Invalid response from assistant service"
  else match errField with
  | some e => .error e
  | none => match answer with
    | some a => .ok a
    | none => .error "Assistant returned no valid answer"

/-- One try/catch round of `askSQLAssistant` (api.js lines 260-315).
Every error thrown inside the try block (invalid body, `data.error`,
missing answer, non-ok HTTP) is a plain Error, so the catch block rethrows
it without retrying; an AbortError becomes the timeout error without
retrying; only a network TypeError is retried.  `retryResult` is the trace
of the recursive retry call, or `none` when the retry budget is spent. -/
def askStep (o : FetchOutcome) (retryResult : Option AskTrace) : AskTrace :=
  match o with
  | .ok validObj errField answer =>
    { attempts := 1, delays := [], result := okResult validObj errField answer }
  | .httpErr _ msg =>
    { attempts := 1, delays := [], result := .error ("Assistant API error: " ++ msg) }
  | .abortErr =>
    { attempts := 1, delays := [], result := .error "Assistant request timed out" }
  | .netErr =>
    match retryResult with
    | none =>
      { attempts := 1, delays := []
        result := .error "Connection failed to assistant. Is the backend running?" }
    | some t =>
      { attempts := t.attempts + 1, delays := RETRY_DELAY :: t.delays
        result := t.result }

/-- The attempt loop of `askSQLAssistant` (api.js lines 260-315), indexed
by the attempt number and the remaining retry budget
`MAX_RETRIES - retryCount`: a network TypeError is retried, after a
constant `RETRY_DELAY` sleep, while budget remains. -/
def askAttempts (outcomes : ℕ → FetchOutcome) : ℕ → ℕ → AskTrace
  | idx, 0 => askStep (outcomes idx) none
  | idx, r + 1 => askStep (outcomes idx) (some (askAttempts outcomes (idx + 1) r))

/-- Shallow embedding of `askSQLAssistant` (api.js lines 237-316) as a
function of the input value and the stream of per-attempt fetch outcomes.
A non-string, empty, or whitespace-only question throws
`Question must be a non-empty string` before any fetch attempt.  The
`context` argument of the JavaScript function affects neither the
validation nor the attempt/retry trace; its only observable effect, on the
`question` field of the payload, is modelled by `askPayloadQuestion`. -/
def askSQLAssistant (q : JSValue) (outcomes : ℕ → FetchOutcome) : AskTrace :=
  match q with
  | .nonString =>
    { attempts := 0, delays := [], result := .error "Question must be a non-empty string" }
  | .str s =>
    if jsTrim s = "" then
      { attempts := 0, delays := [], result := .error "Question must be a non-empty string" }
    else askAttempts outcomes 0 MAX_RETRIES

/-- The `question` field of the payload `askSQLAssistant` sends (api.js
lines 241-249).  The payload is built as
`{ question: normalizedQuestion, ...context }`, and the JavaScript object
spread applies the context after the `question` key, so a `question`
property of the context overrides the trimmed input; `ctx` is the value of
that property when the context object has one.  The result is `none` when
validation throws before any payload is built. -/
def askPayloadQuestion (q : JSValue) (ctx : Option JSValue) : Option JSValue :=
  match q with
  | .nonString => none
  | .str s =>
    if jsTrim s = "" then none
    else
      match ctx with
      | some v => some v
      | none => some (.str (jsTrim s))

lemma clampScore_nonneg (x : ℚ) : 0 ≤ clampScore x := le_max_left 0 _

lemma clampScore_le (x : ℚ) : clampScore x ≤ 100 :=
  max_le (by norm_num) (min_le_left _ _)

/-- Claim C2: for every RawMention and every classifier outcome (success or
failure, hence covering the adversarial case where every bias category
fires at confidence 1.0 with negative sentiment), the trust score the
Scoring Engine emits is in the closed interval [0, 100], because the base
formula is clamped. -/
theorem trustScore_in_range (m : RawMention)
    (r : Except ClassifierError ClassifierOutput) :
    0 ≤ (scoreWith m r).trustScore ∧ (scoreWith m r).trustScore ≤ 100 := by
  cases r with
  | ok out =>
    exact ⟨clampScore_nonneg _, clampScore_le _⟩
  | error e =>
    simp only [scoreWith, lexicalFallback]
    exact ⟨clampScore_nonneg _, clampScore_le _⟩

/-- Claim C3: scoring is deterministic; two runs on propositionally
identical (RawMention, classifier outcome) pairs produce ScoredMention
records that agree on every field. -/
theorem score_deterministic (m1 m2 : RawMention)
    (r1 r2 : Except ClassifierError ClassifierOutput)
    (hm : m1 = m2) (hr : r1 = r2) :
    (scoreWith m1 r1).mentionId = (scoreWith m2 r2).mentionId ∧
    (scoreWith m1 r1).trustScore = (scoreWith m2 r2).trustScore ∧
    (scoreWith m1 r1).biasCategories = (scoreWith m2 r2).biasCategories ∧
    (scoreWith m1 r1).sentiment = (scoreWith m2 r2).sentiment ∧
    (scoreWith m1 r1).sentimentConfidence = (scoreWith m2 r2).sentimentConfidence ∧
    (scoreWith m1 r1).classifierConfidence = (scoreWith m2 r2).classifierConfidence ∧
    (scoreWith m1 r1).scoredAt = (scoreWith m2 r2).scoredAt := by
  subst hm
  subst hr
  exact ⟨rfl, rfl, rfl, rfl, rfl, rfl, rfl⟩

/-- Demo mention used by concrete witnesses. -/
def mDemo : RawMention :=
  { id := "m-1", brand := "Ola", source := .forum, text := "ev review",
    authorContext := "user", publishedAt := 3, ingestedAt := 5 }

/-- Demo classifier output used by concrete witnesses. -/
def outDemo : ClassifierOutput :=
  { biasCategories := [(.urban, 19/20)], sentiment := .negative,
    sentimentConfidence := 4/5, confidence := 9/10 }

/-- Witness for C3 at a concrete mention and classifier output. -/
theorem score_deterministic_witness :
    (scoreWith mDemo (.ok outDemo)).mentionId = (scoreWith mDemo (.ok outDemo)).mentionId ∧
    (scoreWith mDemo (.ok outDemo)).trustScore = (scoreWith mDemo (.ok outDemo)).trustScore ∧
    (scoreWith mDemo (.ok outDemo)).biasCategories = (scoreWith mDemo (.ok outDemo)).biasCategories ∧
    (scoreWith mDemo (.ok outDemo)).sentiment = (scoreWith mDemo (.ok outDemo)).sentiment ∧
    (scoreWith mDemo (.ok outDemo)).sentimentConfidence = (scoreWith mDemo (.ok outDemo)).sentimentConfidence ∧
    (scoreWith mDemo (.ok outDemo)).classifierConfidence = (scoreWith mDemo (.ok outDemo)).classifierConfidence ∧
    (scoreWith mDemo (.ok outDemo)).scoredAt = (scoreWith mDemo (.ok outDemo)).scoredAt :=
  score_deterministic mDemo mDemo (.ok outDemo) (.ok outDemo) rfl rfl

/-- Claim C7: whenever the Classifier Client reports
`ClassifierUnavailable` — in particular whenever the circuit breaker is
open, in which case calls fail fast with that error — the Scoring Engine
still emits a ScoredMention with classifier confidence 0, an empty
bias-category set, neutral sentiment, and the lexical fallback trust
score; the engine is a total function, so no mention is dropped. -/
theorem degraded_path_emits :
    (∀ m : RawMention,
      (scoreWith m (.error .ClassifierUnavailable)).classifierConfidence = 0 ∧
      (scoreWith m (.error .ClassifierUnavailable)).biasCategories = [] ∧
      (scoreWith m (.error .ClassifierUnavailable)).sentiment = .neutral ∧
      (scoreWith m (.error .ClassifierUnavailable)).trustScore = lexicalFallback m.text ∧
      (scoreWith m (.error .ClassifierUnavailable)).mentionId = m.id) ∧
    (∀ (m : RawMention) (b : CircuitBreaker)
        (net : Except ClassifierError ClassifierOutput),
      b.isOpen = true →
      (scoreWith m (callClassifier b net)).classifierConfidence = 0 ∧
      (scoreWith m (callClassifier b net)).biasCategories = [] ∧
      (scoreWith m (callClassifier b net)).sentiment = .neutral ∧
      (scoreWith m (callClassifier b net)).trustScore = lexicalFallback m.text) := by
  constructor
  · intro m
    exact ⟨rfl, rfl, rfl, rfl, rfl⟩
  · intro m b net hb
    simp only [callClassifier, hb, if_true]
    exact ⟨rfl, rfl, rfl, rfl⟩

/-- Witness for C7: a breaker with five consecutive failures is open, and
scoring a concrete mention through it yields the degraded record. -/
theorem degraded_path_emits_witness :
    (scoreWith mDemo (callClassifier ⟨5⟩ (.ok outDemo))).classifierConfidence = 0 ∧
    (scoreWith mDemo (callClassifier ⟨5⟩ (.ok outDemo))).biasCategories = [] ∧
    (scoreWith mDemo (callClassifier ⟨5⟩ (.ok outDemo))).sentiment = .neutral ∧
    (scoreWith mDemo (callClassifier ⟨5⟩ (.ok outDemo))).trustScore = lexicalFallback mDemo.text :=
  degraded_path_emits.2 mDemo ⟨5⟩ (.ok outDemo) (by decide)

/-- Claim C9: `ApiService.request` returns the parsed body wrapped as
`{ data }` exactly when the HTTP response is ok; every non-ok status and
every timeout-triggered abort produces a thrown error (the abort is mapped
to the request-timeout error), so no caller receives a result derived from
a non-ok response. -/
theorem apiRequest_ok_iff (α : Type) (o : HttpOutcome α) :
    ((∃ d, request o = .ok d) ↔ (∃ b, o = .ok b)) ∧
    (∀ b, o = .ok b → request o = .ok { data := b }) ∧
    (o = .abortError → request o = .error "Request timeout - please try again") ∧
    (∀ s, o = .notOk s → request o = .error ("HTTP error! status: " ++ toString s)) := by
  cases o with
  | ok b =>
    refine ⟨⟨fun _ => ⟨b, rfl⟩, fun _ => ⟨{ data := b }, rfl⟩⟩, ?_, ?_, ?_⟩
    · intro b2 hb
      cases hb
      rfl
    · intro h
      cases h
    · intro s h
      cases h
  | notOk s =>
    refine ⟨⟨?_, ?_⟩, ?_, ?_, ?_⟩
    · rintro ⟨d, hd⟩
      simp [request] at hd
    · rintro ⟨b, hb⟩
      cases hb
    · intro b hb
      cases hb
    · intro h
      cases h
    · intro s2 h
      cases h
      rfl
  | abortError =>
    refine ⟨⟨?_, ?_⟩, ?_, ?_, ?_⟩
    · rintro ⟨d, hd⟩
      simp [request] at hd
    · rintro ⟨b, hb⟩
      cases hb
    · intro b hb
      cases hb
    · intro _
      rfl
    · intro s h
      cases h
  | fetchFailed msg =>
    refine ⟨⟨?_, ?_⟩, ?_, ?_, ?_⟩
    · rintro ⟨d, hd⟩
      simp [request] at hd
    · rintro ⟨b, hb⟩
      cases hb
    · intro b hb
      cases hb
    · intro h
      cases h
    · intro s h
      cases h

/-- Witness for C9 at concrete outcomes: an ok response with body 7 is
wrapped as data, and an aborted request yields the timeout error. -/
theorem apiRequest_ok_iff_witness :
    request (HttpOutcome.ok (7 : ℕ)) = .ok { data := 7 } ∧
    request (HttpOutcome.abortError : HttpOutcome ℕ) =
      .error "Request timeout - please try again" :=
  ⟨(apiRequest_ok_iff ℕ (.ok 7)).2.1 7 rfl,
   (apiRequest_ok_iff ℕ .abortError).2.2.1 rfl⟩

/-- Counterexample for C10 as stated: with the valid question " hi " and
a context object carrying a `question` property valued "other", the
payload question sent is the context value, not the trimmed input,
because the object spread at api.js lines 246-249 applies the context
after the `question` key. -/
theorem askPayload_claim_counterexample :
    askPayloadQuestion (.str " hi ") (some (.str "other")) =
      some (.str "other") ∧
    askPayloadQuestion (.str " hi ") (some (.str "other")) ≠
      some (.str (jsTrim " hi ")) := by
  exact ⟨rfl, by decide⟩

/-- Claim C10 (amended): `askSQLAssistant` validates before any network
call — for every argument that is not a string or trims to empty it
throws `Question must be a non-empty string` with zero fetch attempts and
no payload built, whatever the context — and for a valid question the
payload question is the trimmed input exactly when the context has no
`question` property; a `question` property of the context overrides it. -/
theorem askSQLAssistant_validation_payload (q : JSValue) (ctx : Option JSValue)
    (outcomes : ℕ → FetchOutcome) :
    ((q = .nonString ∨ ∃ s, q = .str s ∧ jsTrim s = "") →
      askSQLAssistant q outcomes =
        { attempts := 0, delays := [],
          result := .error "Question must be a non-empty string" } ∧
      askPayloadQuestion q ctx = none) ∧
    (∀ s, q = .str s → jsTrim s ≠ "" →
      (ctx = none → askPayloadQuestion q ctx = some (.str (jsTrim s))) ∧
      (∀ v, ctx = some v → askPayloadQuestion q ctx = some v)) := by
  constructor
  · intro h
    cases q with
    | nonString => exact ⟨rfl, rfl⟩
    | str s =>
      have hs : jsTrim s = "" := by
        rcases h with h | ⟨s2, hs2, ht⟩
        · cases h
        · cases hs2
          exact ht
      constructor
      · simp [askSQLAssistant, hs]
      · simp [askPayloadQuestion, hs]
  · intro s hq ht
    cases hq
    constructor
    · intro hc
      cases hc
      simp [askPayloadQuestion, ht]
    · intro v hc
      cases hc
      simp [askPayloadQuestion, ht]

/-- Witness for C10's amended theorem at concrete inputs: a
whitespace-only question is rejected with zero attempts and no payload; a
valid question is trimmed into the payload when the context has no
question property; a context question property wins otherwise. -/
theorem askSQLAssistant_validation_payload_witness :
    (askSQLAssistant (.str " ") (fun _ => .netErr) =
      { attempts := 0, delays := [],
        result := .error "Question must be a non-empty string" } ∧
     askPayloadQuestion (.str " ") none = none) ∧
    askPayloadQuestion (.str " show brands ") none =
      some (.str (jsTrim " show brands ")) ∧
    askPayloadQuestion (.str " show brands ") (some .nonString) =
      some .nonString :=
  ⟨(askSQLAssistant_validation_payload (.str " ") none (fun _ => .netErr)).1
      (Or.inr ⟨" ", rfl, by decide⟩),
   ((askSQLAssistant_validation_payload (.str " show brands ") none
      (fun _ => .netErr)).2 " show brands " rfl (by decide)).1 rfl,
   ((askSQLAssistant_validation_payload (.str " show brands ")
      (some .nonString) (fun _ => .netErr)).2 " show brands " rfl
      (by decide)).2 .nonString rfl⟩

/-- Claim C5: the Alert Engine's severity cascade (Critical if trust < 30
or a Critical-tier bias category fires above 0.9; High if trust < 50;
Medium if trust < 70; Low only for rate/delay triggers) agrees with taking
the maximum severity across all simultaneously-firing conditions. -/
theorem severity_is_max_of_firing (ts : ℚ) (cb rd : Bool) :
    assignSeverity ts cb rd = maxSeverity (firingSeverities ts cb rd) := by
  have h1 : ts < 30 → ts < 50 := fun h => h.trans (by norm_num)
  have h2 : ts < 50 → ts < 70 := fun h => h.trans (by norm_num)
  by_cases h30 : ts < 30 <;> by_cases h50 : ts < 50 <;> by_cases h70 : ts < 70 <;>
    cases cb <;> cases rd <;>
      first
      | (exact absurd (h1 h30) h50)
      | (exact absurd (h2 h50) h70)
      | simp [assignSeverity, firingSeverities, maxSeverity, sevMax, sevRank,
               h30, h50, h70]

lemma askAttempts_spec (outcomes : ℕ → FetchOutcome) :
    ∀ (r idx : ℕ),
      1 ≤ (askAttempts outcomes idx r).attempts ∧
      (askAttempts outcomes idx r).attempts ≤ r + 1 ∧
      (∀ d ∈ (askAttempts outcomes idx r).delays, d = RETRY_DELAY) ∧
      (askAttempts outcomes idx r).delays.length =
        (askAttempts outcomes idx r).attempts - 1 := by
  intro r
  induction r with
  | zero =>
    intro idx
    unfold askAttempts
    cases outcomes idx <;> simp [askStep]
  | succ n ih =>
    intro idx
    obtain ⟨ih1, ih2, ih3, ih4⟩ := ih (idx + 1)
    unfold askAttempts
    cases h : outcomes idx <;> simp [askStep]
    refine ⟨by omega, ?_, ?_⟩
    · intro d hd
      exact ih3 d hd
    · simp only [List.length_cons, ih4]
      omega

/-- Counterexample for C8 as stated: on a valid question whose first fetch
attempt times out (AbortError), `askSQLAssistant` surfaces the timeout
after exactly one attempt instead of retrying, and when every attempt
fails at the network level the inter-attempt delays are the constant
[2000, 2000] rather than exponentially growing with jitter. -/
theorem askRetry_claim_counterexample :
    (askSQLAssistant (.str "show brands") (fun _ => .abortErr)).attempts = 1 ∧
    ¬ 2 ≤ (askSQLAssistant (.str "show brands") (fun _ => .abortErr)).attempts ∧
    (askSQLAssistant (.str "show brands") (fun _ => .netErr)).delays =
      [RETRY_DELAY, RETRY_DELAY] := by
  refine ⟨by decide, by decide, by decide⟩

/-- Claim C8 (amended): `askSQLAssistant` makes at most `MAX_RETRIES + 1 =
3` total attempts; every delay slept between attempts is the constant
`RETRY_DELAY` (2000 ms, no exponential growth, no jitter); a timeout
(AbortError) on the first attempt is surfaced immediately after one
attempt; a non-ok HTTP response is surfaced immediately after one attempt;
and only network-level fetch TypeErrors are retried, exhausting all three
attempts when they persist. -/
theorem askSQLAssistant_retry_policy (q : String) (outcomes : ℕ → FetchOutcome)
    (hq : ¬ jsTrim q = "") :
    (askSQLAssistant (.str q) outcomes).attempts ≤ MAX_RETRIES + 1 ∧
    (∀ d ∈ (askSQLAssistant (.str q) outcomes).delays, d = RETRY_DELAY) ∧
    (askSQLAssistant (.str q) outcomes).delays.length =
      (askSQLAssistant (.str q) outcomes).attempts - 1 ∧
    (outcomes 0 = .abortErr →
      askSQLAssistant (.str q) outcomes =
        { attempts := 1, delays := [],
          result := .error "Assistant request timed out" }) ∧
    (∀ st msg, outcomes 0 = .httpErr st msg →
      (askSQLAssistant (.str q) outcomes).attempts = 1) ∧
    ((∀ i, outcomes i = .netErr) →
      (askSQLAssistant (.str q) outcomes).attempts = 3) := by
  obtain ⟨h1, h2, h3, h4⟩ := askAttempts_spec outcomes MAX_RETRIES 0
  simp only [askSQLAssistant, if_neg hq]
  refine ⟨h2, h3, h4, ?_, ?_, ?_⟩
  · intro h0
    rw [show askAttempts outcomes 0 MAX_RETRIES =
          askStep (outcomes 0) (some (askAttempts outcomes 1 1)) from rfl, h0]
    rfl
  · intro st msg h0
    rw [show askAttempts outcomes 0 MAX_RETRIES =
          askStep (outcomes 0) (some (askAttempts outcomes 1 1)) from rfl, h0]
    rfl
  · intro hall
    rw [show askAttempts outcomes 0 MAX_RETRIES =
          askStep (outcomes 0)
            (some (askStep (outcomes 1) (some (askStep (outcomes 2) none)))) from rfl,
        hall 0, hall 1, hall 2]
    rfl

/-- Witness for C8's amended theorem on a concrete valid question with
persistent network failures: at most three attempts are allowed and all
three are used. -/
theorem askSQLAssistant_retry_policy_witness :
    (askSQLAssistant (.str "list alerts") (fun _ => .netErr)).attempts ≤ MAX_RETRIES + 1 ∧
    (askSQLAssistant (.str "list alerts") (fun _ => .netErr)).attempts = 3 :=
  ⟨(askSQLAssistant_retry_policy "list alerts" (fun _ => .netErr) (by decide)).1,
   (askSQLAssistant_retry_policy "list alerts" (fun _ => .netErr)
      (by decide)).2.2.2.2.2 (fun _ => rfl)⟩

/-- Claim C6: `resolve(alert-id)` transitions an Open or Acknowledged
alert to Resolved immediately; a missing id fails with `AlertNotFound` and
an already-Resolved alert fails with `AlertAlreadyResolved`, in both
failure cases leaving the store unchanged. -/
theorem resolve_action_spec (s : AlertStore) (idn now : ℕ) :
    (s.find? (fun a => a.id == idn) = none →
      resolveAlert s idn now = .error .AlertNotFound ∧
      applyResolve s idn now = s) ∧
    (∀ a, s.find? (fun a => a.id == idn) = some a → a.state = .Resolved →
      resolveAlert s idn now = .error .AlertAlreadyResolved ∧
      applyResolve s idn now = s) ∧
    (∀ a, s.find? (fun a => a.id == idn) = some a →
      a.state = .Open ∨ a.state = .Acknowledged →
      ∃ s2, resolveAlert s idn now = .ok s2 ∧ applyResolve s idn now = s2 ∧
        s2.length = s.length ∧
        (∀ b ∈ s2, b.id = idn → b.state = .Resolved ∧ b.resolvedAt = some now) ∧
        (∀ b ∈ s, b.id ≠ idn → b ∈ s2)) := by
  refine ⟨?_, ?_, ?_⟩
  · intro hf
    have h1 : resolveAlert s idn now = .error .AlertNotFound := by
      unfold resolveAlert
      rw [hf]
    exact ⟨h1, by simp [applyResolve, h1]⟩
  · intro a hf ha
    have h1 : resolveAlert s idn now = .error .AlertAlreadyResolved := by
      simp [resolveAlert, hf, ha]
    exact ⟨h1, by simp [applyResolve, h1]⟩
  · intro a hf ha
    have h1 : resolveAlert s idn now = .ok (s.map (resolveMark idn now)) := by
      rcases ha with h | h <;> simp [resolveAlert, hf, h]
    refine ⟨s.map (resolveMark idn now), h1, by simp [applyResolve, h1],
      by simp, ?_, ?_⟩
    · intro b hb hid
      rcases List.mem_map.mp hb with ⟨c, hc, hbc⟩
      by_cases hcid : c.id = idn
      · rw [← hbc]
        simp [resolveMark, hcid]
      · have : resolveMark idn now c = c := by
          simp [resolveMark, hcid]
        rw [← hbc, this] at hid
        exact absurd hid hcid
    · intro b hb hid
      have hfb : resolveMark idn now b = b := by
        simp [resolveMark, hid]
      rw [← hfb]
      exact List.mem_map_of_mem _ hb

/-- Demo alerts used by the C6 witness. -/
def aOpenDemo : Alert :=
  { id := 1, brand := "Ola", biasType := some .urban,
    trustScoreAtTrigger := 25, severity := .critical, textSample := "ev review",
    triggeredAt := 5, lastTriggeredAt := 5, state := .Open, resolvedAt := none,
    dedupKey := ("Ola", some .urban, .critical) }

/-- Witness for C6: resolving the concrete Open alert succeeds and marks
it Resolved; resolving a missing id fails with `AlertNotFound`. -/
theorem resolve_action_spec_witness :
    (∃ s2, resolveAlert [aOpenDemo] 1 9 = .ok s2 ∧
      applyResolve [aOpenDemo] 1 9 = s2 ∧
      s2.length = [aOpenDemo].length ∧
      (∀ b ∈ s2, b.id = 1 → b.state = .Resolved ∧ b.resolvedAt = some 9) ∧
      (∀ b ∈ [aOpenDemo], b.id ≠ 1 → b ∈ s2)) ∧
    (resolveAlert [aOpenDemo] 2 9 = .error .AlertNotFound ∧
     applyResolve [aOpenDemo] 2 9 = [aOpenDemo]) :=
  ⟨(resolve_action_spec [aOpenDemo] 1 9).2.2 aOpenDemo (by decide) (Or.inl rfl),
   (resolve_action_spec [aOpenDemo] 2 9).1 (by decide)⟩

lemma countP_map_pred_congr {α : Type} (f : α → α) (p : α → Bool)
    (h : ∀ a, p (f a) = p a) (l : List α) :
    (l.map f).countP p = l.countP p := by
  induction l with
  | nil => rfl
  | cons x xs ih => simp [List.countP_cons, h, ih]

lemma countP_eq_zero_of_forall {α : Type} (p : α → Bool) (l : List α)
    (h : ∀ a ∈ l, p a = false) : l.countP p = 0 := by
  induction l with
  | nil => rfl
  | cons x xs ih =>
    rw [List.countP_cons, h x (List.mem_cons_self x xs)]
    simp [ih fun a ha => h a (List.mem_cons_of_mem _ ha)]

lemma find?_map_pred {α : Type} (f : α → α) (p : α → Bool)
    (h : ∀ a, p (f a) = p a) (l : List α) :
    (l.map f).find? p = (l.find? p).map f := by
  induction l with
  | nil => rfl
  | cons x xs ih =>
    by_cases hx : p x
    · rw [List.map_cons, List.find?_cons_of_pos _ (by rw [h]; exact hx),
          List.find?_cons_of_pos _ hx]
      rfl
    · rw [List.map_cons,
          List.find?_cons_of_neg _ (by rw [h]; exact hx),
          List.find?_cons_of_neg _ hx, ih]

lemma find?_append_of_none {α : Type} (p : α → Bool) {l1 l2 : List α}
    (h : l1.find? p = none) : (l1 ++ l2).find? p = l2.find? p := by
  induction l1 with
  | nil => rfl
  | cons x xs ih =>
    by_cases hx : p x
    · rw [List.find?_cons_of_pos _ hx] at h
      cases h
    · rw [List.find?_cons_of_neg _ hx] at h
      rw [List.cons_append, List.find?_cons_of_neg _ hx]
      exact ih h

lemma map_id_of_forall {α : Type} (f : α → α) (l : List α)
    (h : ∀ a ∈ l, f a = a) : l.map f = l := by
  induction l with
  | nil => rfl
  | cons x xs ih =>
    rw [List.map_cons, h x (List.mem_cons_self x xs),
        ih fun a ha => h a (List.mem_cons_of_mem _ ha)]

lemma map_congr_mem {α β : Type} (f g : α → β) (l : List α)
    (h : ∀ a ∈ l, f a = g a) : l.map f = l.map g := by
  induction l with
  | nil => rfl
  | cons x xs ih =>
    rw [List.map_cons, List.map_cons, h x (List.mem_cons_self x xs),
        ih fun a ha => h a (List.mem_cons_of_mem _ ha)]

lemma isOpenFor_touch (k2 : DedupKey) (t : Trigger) (b : Alert) :
    isOpenFor k2 (touch t b) = isOpenFor k2 b := by
  simp [isOpenFor, touch]

lemma isOpenFor_touchUpd (k k2 : DedupKey) (t : Trigger) (b : Alert) :
    isOpenFor k2 (touchUpd k t b) = isOpenFor k2 b := by
  unfold touchUpd
  by_cases hb : isOpenFor k b
  · rw [if_pos hb, isOpenFor_touch]
  · rw [if_neg hb]

lemma isOpenFor_autoResolve (k2 : DedupKey) (now : ℕ) (b : Alert) :
    isOpenFor k2 (autoResolve now b) = false := by
  simp [isOpenFor, autoResolve]

lemma isOpenFor_key_eq {k k2 : DedupKey} {b : Alert}
    (hb : isOpenFor k b = true) (hk : k2 ≠ k) : isOpenFor k2 b = false := by
  simp only [isOpenFor, Bool.and_eq_true, decide_eq_true_eq] at hb
  simp only [isOpenFor, Bool.and_eq_false_iff, decide_eq_false_iff_not]
  right
  rw [hb.2]
  exact fun h => hk h.symm

lemma isOpenFor_resolveUpd_same (k : DedupKey) (now : ℕ) (b : Alert) :
    isOpenFor k (resolveUpd k now b) = false := by
  unfold resolveUpd
  by_cases hb : isOpenFor k b
  · rw [if_pos hb, isOpenFor_autoResolve]
  · rw [if_neg hb]
    exact Bool.not_eq_true _ ▸ (Bool.eq_false_iff.mpr hb)

lemma isOpenFor_resolveUpd_other {k k2 : DedupKey} (hk : k2 ≠ k) (now : ℕ)
    (b : Alert) :
    isOpenFor k2 (resolveUpd k now b) = isOpenFor k2 b := by
  unfold resolveUpd
  by_cases hb : isOpenFor k b
  · rw [if_pos hb, isOpenFor_autoResolve, isOpenFor_key_eq hb hk]
  · rw [if_neg hb]

lemma isOpenFor_newAlert_self (t : Trigger) (sev : Severity) (i : ℕ) :
    isOpenFor (t.key sev) (newAlert t sev i) = true := by
  simp [isOpenFor, newAlert]

lemma isOpenFor_newAlert_other {k2 : DedupKey} {t : Trigger} {sev : Severity}
    (hk : k2 ≠ t.key sev) (i : ℕ) :
    isOpenFor k2 (newAlert t sev i) = false :=
  isOpenFor_key_eq (isOpenFor_newAlert_self t sev i) hk

lemma processTrigger_uniqueOpen (s : AlertStore) (t : Trigger)
    (h : uniqueOpen s) : uniqueOpen (processTrigger s t) := by
  unfold processTrigger
  split
  · exact h
  · rename_i sev hsev
    split
    · rename_i a hf
      split
      · rename_i hcd
        intro k2
        unfold openCount
        rw [countP_map_pred_congr _ _ (isOpenFor_touchUpd (t.key sev) k2 t)]
        exact h k2
      · rename_i hcd
        intro k2
        unfold openCount
        rw [List.countP_append]
        by_cases hk : k2 = t.key sev
        · subst hk
          have hz : (s.map (resolveUpd (t.key sev) t.time)).countP
                (isOpenFor (t.key sev)) = 0 := by
            apply countP_eq_zero_of_forall
            intro c hc
            rcases List.mem_map.mp hc with ⟨b, _, hbc⟩
            rw [← hbc]
            exact isOpenFor_resolveUpd_same (t.key sev) t.time b
          rw [hz]
          simp [List.countP_cons, isOpenFor_newAlert_self]
        · rw [countP_map_pred_congr _ _
            (fun b => isOpenFor_resolveUpd_other hk t.time b)]
          have hz : ([newAlert t sev s.length] : AlertStore).countP
              (isOpenFor k2) = 0 := by
            simp [List.countP_cons, isOpenFor_newAlert_other hk]
          rw [hz]
          simpa using h k2
    · rename_i hf
      intro k2
      unfold openCount
      rw [List.countP_append]
      by_cases hk : k2 = t.key sev
      · subst hk
        have hz : s.countP (isOpenFor (t.key sev)) = 0 := by
          apply countP_eq_zero_of_forall
          intro c hc
          have := List.find?_eq_none.mp hf c hc
          exact Bool.eq_false_iff.mpr this
        rw [hz]
        simp [List.countP_cons, isOpenFor_newAlert_self]
      · have hz : ([newAlert t sev s.length] : AlertStore).countP
            (isOpenFor k2) = 0 := by
          simp [List.countP_cons, isOpenFor_newAlert_other hk]
        rw [hz]
        simpa using h k2

/-- Claim C1: starting from the empty store, any sequence of triggers
leaves at most one Open alert per dedup key; moreover a trigger arriving
while an Open alert for its key exists within the cooldown window keeps
the store size unchanged (no new alert) and leaves an Open alert for the
key carrying the trigger's trust score and text sample (latest evidence
wins). -/
theorem alertEngine_dedup_invariant :
    (∀ trigs : List Trigger, uniqueOpen (processTriggers [] trigs)) ∧
    (∀ (s : AlertStore) (t : Trigger) (sev : Severity) (a : Alert),
      assignSeverity t.trustScore t.criticalBias t.rateDelay = some sev →
      s.find? (isOpenFor (t.key sev)) = some a →
      t.time - a.lastTriggeredAt ≤ cooldown →
      (processTrigger s t).length = s.length ∧
      ∃ b, b ∈ processTrigger s t ∧ isOpenFor (t.key sev) b = true ∧
        b.trustScoreAtTrigger = t.trustScore ∧ b.textSample = t.text) := by
  constructor
  · intro trigs
    have hstep : ∀ (ts : List Trigger) (s : AlertStore),
        uniqueOpen s → uniqueOpen (processTriggers s ts) := by
      intro ts
      induction ts with
      | nil => exact fun s hs => hs
      | cons x xs ih =>
        exact fun s hs => ih _ (processTrigger_uniqueOpen s x hs)
    apply hstep
    intro k
    simp [openCount]
  · intro s t sev a hsev hf hcd
    have hstore : processTrigger s t = s.map (touchUpd (t.key sev) t) := by
      simp only [processTrigger, hsev, hf, hcd, if_true]
    constructor
    · rw [hstore, List.length_map]
    · refine ⟨touch t a, ?_, ?_, rfl, rfl⟩
      · rw [hstore]
        have ha : isOpenFor (t.key sev) a = true := List.find?_some hf
        have hfa : touchUpd (t.key sev) t a = touch t a := by
          simp [touchUpd, ha]
        rw [← hfa]
        exact List.mem_map_of_mem _ (List.mem_of_find?_eq_some hf)
      · rw [isOpenFor_touch]
        exact List.find?_some hf

/-- Demo trigger used by the C1 witness: same brand, bias type and
severity bucket as `aOpenDemo`, arriving 5 minutes after it. -/
def tDemo : Trigger :=
  { brand := "Ola", biasType := some .urban, trustScore := 25,
    criticalBias := false, rateDelay := false, text := "new evidence",
    time := 10 }

/-- Witness for C1: one trigger from the empty store keeps the invariant,
and the concrete within-cooldown re-trigger updates in place. -/
theorem alertEngine_dedup_invariant_witness :
    uniqueOpen (processTriggers [] [tDemo]) ∧
    ((processTrigger [aOpenDemo] tDemo).length = [aOpenDemo].length ∧
     ∃ b, b ∈ processTrigger [aOpenDemo] tDemo ∧
       isOpenFor (tDemo.key .critical) b = true ∧
       b.trustScoreAtTrigger = tDemo.trustScore ∧ b.textSample = tDemo.text) :=
  ⟨alertEngine_dedup_invariant.1 [tDemo],
   alertEngine_dedup_invariant.2 [aOpenDemo] tDemo .critical aOpenDemo
     (by decide) (by decide) (by decide)⟩

lemma touch_touch (t : Trigger) (b : Alert) : touch t (touch t b) = touch t b :=
  rfl

lemma touchUpd_idem (k : DedupKey) (t : Trigger) (b : Alert) :
    touchUpd k t (touchUpd k t b) = touchUpd k t b := by
  by_cases hb : isOpenFor k b
  · unfold touchUpd
    rw [if_pos hb, isOpenFor_touch, if_pos hb, touch_touch]
  · unfold touchUpd
    rw [if_neg hb, if_neg hb]

lemma touch_newAlert (t : Trigger) (sev : Severity) (i : ℕ) :
    touch t (newAlert t sev i) = newAlert t sev i :=
  rfl

lemma touchUpd_newAlert (t : Trigger) (sev : Severity) (i : ℕ) :
    touchUpd (t.key sev) t (newAlert t sev i) = newAlert t sev i := by
  unfold touchUpd
  rw [if_pos (isOpenFor_newAlert_self t sev i), touch_newAlert]

lemma processTrigger_idem (s : AlertStore) (t : Trigger) :
    processTrigger (processTrigger s t) t = processTrigger s t := by
  cases hsev : assignSeverity t.trustScore t.criticalBias t.rateDelay with
  | none =>
    have h1 : processTrigger s t = s := by
      simp only [processTrigger, hsev]
    rw [h1, h1]
  | some sev =>
    cases hf : s.find? (isOpenFor (t.key sev)) with
    | some a =>
      by_cases hcd : t.time - a.lastTriggeredAt ≤ cooldown
      · have h1 : processTrigger s t = s.map (touchUpd (t.key sev) t) := by
          simp only [processTrigger, hsev, hf, hcd, if_true]
        have hfind2 : (s.map (touchUpd (t.key sev) t)).find?
            (isOpenFor (t.key sev)) = some (touchUpd (t.key sev) t a) := by
          rw [find?_map_pred _ _ (isOpenFor_touchUpd (t.key sev) (t.key sev) t),
              hf]
          rfl
        have hga : touchUpd (t.key sev) t a = touch t a := by
          unfold touchUpd
          rw [if_pos (List.find?_some hf)]
        have hcd2 : t.time - (touchUpd (t.key sev) t a).lastTriggeredAt ≤
            cooldown := by
          rw [hga]
          show t.time - t.time ≤ cooldown
          rw [Nat.sub_self]
          exact Nat.zero_le _
        have h2 : processTrigger (s.map (touchUpd (t.key sev) t)) t =
            (s.map (touchUpd (t.key sev) t)).map (touchUpd (t.key sev) t) := by
          simp only [processTrigger, hsev, hfind2, hcd2, if_true]
        rw [h1, h2, List.map_map]
        exact map_congr_mem _ _ s fun b _ => touchUpd_idem (t.key sev) t b
      · have h1 : processTrigger s t =
            (s.map (resolveUpd (t.key sev) t.time)) ++ [newAlert t sev s.length] := by
          simp only [processTrigger, hsev, hf]
          rw [if_neg hcd]
        have hnone : (s.map (resolveUpd (t.key sev) t.time)).find?
            (isOpenFor (t.key sev)) = none := by
          apply List.find?_eq_none.mpr
          intro c hc
          rcases List.mem_map.mp hc with ⟨b, _, hbc⟩
          rw [← hbc]
          simp [isOpenFor_resolveUpd_same (t.key sev) t.time b]
        have hfind2 : ((s.map (resolveUpd (t.key sev) t.time)) ++
            [newAlert t sev s.length]).find? (isOpenFor (t.key sev)) =
              some (newAlert t sev s.length) := by
          rw [find?_append_of_none _ hnone,
              List.find?_cons_of_pos _ (isOpenFor_newAlert_self t sev s.length)]
        have hcd2 : t.time - (newAlert t sev s.length).lastTriggeredAt ≤
            cooldown := by
          show t.time - t.time ≤ cooldown
          rw [Nat.sub_self]
          exact Nat.zero_le _
        have h2 : processTrigger ((s.map (resolveUpd (t.key sev) t.time)) ++
            [newAlert t sev s.length]) t =
            ((s.map (resolveUpd (t.key sev) t.time)) ++
              [newAlert t sev s.length]).map (touchUpd (t.key sev) t) := by
          simp only [processTrigger, hsev, hfind2, hcd2, if_true]
        rw [h1, h2, List.map_append]
        congr 1
        · apply map_id_of_forall
          intro c hc
          rcases List.mem_map.mp hc with ⟨b, _, hbc⟩
          have hcf : isOpenFor (t.key sev) c = false := by
            rw [← hbc]
            exact isOpenFor_resolveUpd_same (t.key sev) t.time b
          unfold touchUpd
          rw [hcf]
          simp
        · rw [List.map_cons, List.map_nil, touchUpd_newAlert]
    | none =>
      have h1 : processTrigger s t = s ++ [newAlert t sev s.length] := by
        simp only [processTrigger, hsev, hf]
      have hfind2 : (s ++ [newAlert t sev s.length]).find?
          (isOpenFor (t.key sev)) = some (newAlert t sev s.length) := by
        rw [find?_append_of_none _ hf,
            List.find?_cons_of_pos _ (isOpenFor_newAlert_self t sev s.length)]
      have hcd2 : t.time - (newAlert t sev s.length).lastTriggeredAt ≤
          cooldown := by
        show t.time - t.time ≤ cooldown
        rw [Nat.sub_self]
        exact Nat.zero_le _
      have h2 : processTrigger (s ++ [newAlert t sev s.length]) t =
          (s ++ [newAlert t sev s.length]).map (touchUpd (t.key sev) t) := by
        simp only [processTrigger, hsev, hfind2, hcd2, if_true]
      rw [h1, h2, List.map_append]
      congr 1
      · apply map_id_of_forall
        intro c hc
        have hcf : isOpenFor (t.key sev) c = false :=
          Bool.eq_false_iff.mpr (List.find?_eq_none.mp hf c hc)
        unfold touchUpd
        rw [hcf]
        simp
      · rw [List.map_cons, List.map_nil, touchUpd_newAlert]

lemma lookup_upsert {β : Type} (l : List (String × β)) (k : String) (v : β) :
    (upsert l k v).lookup k = some v := by
  simp [upsert, List.lookup]

lemma upsert_idem {β : Type} (l : List (String × β)) (k : String) (v : β) :
    upsert (upsert l k v) k v = upsert l k v := by
  unfold upsert
  congr 1
  rw [List.filter_cons]
  simp [List.filter_filter]

/-- Claim C4: replaying the same RawMention (with the same classifier
outcome and processing time) through the full pipeline
(score → alert-evaluate → persist) is idempotent: the second pass is a
no-op rewrite of the store, because the scored-mention write is an upsert
keyed by mention id, the alert step re-triggers the alert it just wrote
within the cooldown window with identical values, and the aggregate update
is skipped for an already-known mention id. -/
theorem pipeline_idempotent (now : ℕ) (m : RawMention)
    (r : Except ClassifierError ClassifierOutput) (st : PipelineState) :
    processMention now m r (processMention now m r st) =
      processMention now m r st := by
  unfold processMention
  simp only [lookup_upsert, Option.isSome_some, if_true]
  rw [upsert_idem, processTrigger_idem]
